import Mathlib

/-!
Verification development for the gnosis-chain bridged-token-deployer task
(`src/tasks/deployment-of-bridged-token-deployer.ts`).

The task `generateDeployment` is shallowly embedded as a pure function from a
run input (chain id, parsed settings, parsed claims, the addresses predicted
by `generateProposal`, …) to either an error or a run output, together with
the ordered trace of filesystem events the run performs.  Helper modules that
the task imports but that are not part of the given sources (`computeProofs`,
the shard-splitting helpers, the dummy virtual-token settings) are modelled
from the specification and marked as such in their doc comments.
-/

set_option maxRecDepth 4000

namespace CowToken

/-- Modelled from the spec: a claim type is a small closed enumeration
(airdrop / investor / team / advisor …); the exact constructors are not in the
given sources (`parseCsvFile` lives in `../ts`). -/
inductive ClaimType where
  | airdrop
  | investor
  | team
  | advisor
  deriving DecidableEq, Repr

/-- Modelled from the spec: a validated claim record — beneficiary identity,
amount, claim type.  The concrete record type comes from `../ts`, which is not
among the given sources. -/
structure Claim where
  account : String
  amount : Nat
  claimType : ClaimType
  deriving DecidableEq, Repr

/-- The per-contract settings entry: the task only reads the optional
`expectedAddress` field (`settings.cowToken.expectedAddress`,
`settings.cowDao.expectedAddress`).  `none` embeds the JavaScript value
`undefined` for an absent field. -/
structure ContractSettings where
  expectedAddress : Option String
  deriving DecidableEq, Repr

/-- The `bridge` sub-object of the settings document.  The task reads
`settings.bridge.multiTokenMediatorGnosisChain`; an absent leaf field is
JavaScript `undefined`, embedded as `none`. -/
structure BridgeSettings where
  multiTokenMediatorGnosisChain : Option String
  deriving DecidableEq, Repr

/-- The `virtualCowToken` sub-object of the settings document.  The task reads
`settings.virtualCowToken.gnoPrice`; any further fields of the JSON object are
kept in `rest` (the task never reads them, but object spread copies them). -/
structure VirtualTokenSettings where
  gnoPrice : Option String
  rest : List (String × String)
  deriving DecidableEq, Repr

/-- The parsed settings document.  `bridge` and `virtualCowToken` are optional
because `JSON.parse` performs no validation: a document may omit them, and the
task only fails when it dereferences the missing object.
`multiTokenMediatorGnosisChain` is the dynamic *top-level* property of the
settings object: absent (`none`) in any parsed document, but set by the
`dummySettings` object literal in the task.  `rest` holds any further
top-level JSON fields, copied verbatim by object spread. -/
structure Settings where
  cowToken : ContractSettings
  cowDao : ContractSettings
  bridge : Option BridgeSettings
  virtualCowToken : Option VirtualTokenSettings
  multiTokenMediatorGnosisChain : Option String
  rest : List (String × String)
  deriving DecidableEq, Repr

/-- `ethers.constants.AddressZero`. -/
def AddressZero : String := "0x0000000000000000000000000000000000000000"

/-- Modelled from the spec: `dummyVirtualTokenCreationSettings` is imported
from `../ts/lib/dummy-instantiation`, which is not among the given sources.
It is a fixed, run-independent constant ("many zero addresses and hashes");
no claim depends on its exact field values. -/
def dummyVirtualTokenCreationSettings : VirtualTokenSettings :=
  { gnoPrice := some "0", rest := [] }

/-- The `dummySettings` object literal of the task:
`{ ...settings, virtualCowToken: dummyVirtualTokenCreationSettings,
multiTokenMediatorGnosisChain: constants.AddressZero }`.  Object spread copies
every field of `settings` (including `bridge`), then the literal overrides the
`virtualCowToken` field and the *top-level* `multiTokenMediatorGnosisChain`
field. -/
def dummySettings (settings : Settings) : Settings :=
  { settings with
    virtualCowToken := some dummyVirtualTokenCreationSettings
    multiTokenMediatorGnosisChain := some AddressZero }

/-- ASCII lowercase of one character (`String.prototype.toLowerCase` on the
characters occurring in hex addresses). -/
def lowerChar (c : Char) : Char :=
  if 'A' ≤ c ∧ c ≤ 'Z' then Char.ofNat (c.toNat + 32) else c

/-- ASCII lowercase of a string: the embedding of `.toLowerCase()` as applied
to address strings in the task. -/
def strToLower (s : String) : String := ⟨s.data.map lowerChar⟩

/-- Split a character list at every occurrence of `sep` (like
`String.prototype.split`). -/
def splitOnChar (sep : Char) (cs : List Char) : List (List Char) :=
  cs.foldr
    (fun c acc =>
      match acc with
      | [] => if c = sep then [[], []] else [[c]]
      | g :: gs => if c = sep then [] :: g :: gs else (c :: g) :: gs)
    [[]]

/-- Value of a decimal digit character, `none` on a non-digit. -/
def digitVal (c : Char) : Option Nat :=
  if c.isDigit then some (c.toNat - 48) else none

/-- Parse a nonempty string of decimal digits. -/
def parseDigits (cs : List Char) : Option Nat :=
  match cs with
  | [] => none
  | _ =>
    cs.foldl
      (fun acc c =>
        match acc, digitVal c with
        | some n, some d => some (n * 10 + d)
        | _, _ => none)
      (some 0)

/-- Embedding of `ethers.utils.parseUnits` on decimal strings: the value of
`s`, scaled by `10 ^ decimals`, as an integer; `none` when the string is not a
decimal numeral with at most `decimals` fractional digits. -/
def parseUnits (s : String) (decimals : Nat) : Option Nat :=
  match splitOnChar '.' s.data with
  | [whole] => (parseDigits whole).map (· * 10 ^ decimals)
  | [whole, frac] =>
    if frac.length ≤ decimals then
      match parseDigits whole, parseDigits frac with
      | some w, some f => some (w * 10 ^ decimals + f * 10 ^ (decimals - frac.length))
      | _, _ => none
    else none
  | _ => none

/-- The `DeploymentHelperDeployParams` record assembled by the task.  Fields
whose value can be the JavaScript `undefined` (a missing settings leaf, a
missing default-token table entry) are `Option`s. -/
structure DeploymentHelperDeployParams where
  foreignToken : String
  multiTokenMediatorGnosisChain : Option String
  merkleRoot : Nat
  communityFundsTarget : String
  gnoToken : Option String
  gnoPrice : Option String
  nativeTokenPrice : Nat
  wrappedNativeToken : Option String
  deriving DecidableEq, Repr

/-- The JavaScript `TypeError` raised when a property of `undefined` is
dereferenced, as in `settings.bridge.multiTokenMediatorGnosisChain` with
`settings.bridge` absent.  The message names the accessed field. -/
def typeErrorMsg (field : String) : String :=
  "Cannot read properties of undefined (reading " ++ field ++ ")"

/-- Embedding of the object literal assigned to `deploymentHelperParameters`
in the task (its only fallible parts are the two nested property reads
`settings.bridge.multiTokenMediatorGnosisChain` and
`settings.virtualCowToken.gnoPrice`, which throw a `TypeError` when the
intermediate object is `undefined`).  `gno` and `weth` are the injected
`defaultTokens` tables (imported from `../ts/lib/constants`, not among the
given sources); `nativeTokenPrice` is the inlined constant
`utils.parseUnits("0.15", 18)`. -/
def deploymentHelperParameters (settings : Settings) (cowToken cowDao : String)
    (merkleRoot : Nat) (chainId : String) (gno weth : String → Option String) :
    Except String DeploymentHelperDeployParams :=
  match settings.bridge with
  | none => .error (typeErrorMsg "multiTokenMediatorGnosisChain")
  | some bridge =>
    match settings.virtualCowToken with
    | none => .error (typeErrorMsg "gnoPrice")
    | some vct =>
      .ok
        { foreignToken := cowToken
          multiTokenMediatorGnosisChain := bridge.multiTokenMediatorGnosisChain
          merkleRoot := merkleRoot
          communityFundsTarget := cowDao
          gnoToken := gno chainId
          gnoPrice := vct.gnoPrice
          nativeTokenPrice := (parseUnits "0.15" 18).getD 0
          wrappedNativeToken := weth chainId }

/-- One level of the commitment tree: adjacent nodes are paired left-to-right
and hashed; an unpaired last node is promoted unchanged to the next level. -/
def levelUp (nodeHash : Nat → Nat → Nat) : List Nat → List Nat
  | [] => []
  | [x] => [x]
  | x :: y :: rest => nodeHash x y :: levelUp nodeHash rest

/-- Fold `levelUp` until at most one node remains; `fuel` bounds the number of
levels (the initial leaf count suffices since every level shrinks). -/
def rootOfAux (nodeHash : Nat → Nat → Nat) : Nat → List Nat → Nat
  | 0, _ => 0
  | _, [] => 0
  | _, [x] => x
  | fuel + 1, l => rootOfAux nodeHash fuel (levelUp nodeHash l)

/-- The root of the commitment tree over a leaf sequence. -/
def rootOf (nodeHash : Nat → Nat → Nat) (leaves : List Nat) : Nat :=
  rootOfAux nodeHash leaves.length leaves

/-- The inclusion proof of the node at index `i` of `level`: the sibling hash
at every level visited, bottom-up.  An unpaired (promoted) last node
contributes no sibling at its level. -/
def proofOfAux (nodeHash : Nat → Nat → Nat) : Nat → List Nat → Nat → List Nat
  | 0, _, _ => []
  | fuel + 1, level, i =>
    if level.length ≤ 1 then []
    else
      let sib : List Nat :=
        if i % 2 = 0 then
          match level.get? (i + 1) with
          | some s => [s]
          | none => []
        else
          match level.get? (i - 1) with
          | some s => [s]
          | none => []
      sib ++ proofOfAux nodeHash fuel (levelUp nodeHash level) (i / 2)

/-- The inclusion proof of leaf `i` in the tree over `leaves`. -/
def proofOf (nodeHash : Nat → Nat → Nat) (leaves : List Nat) (i : Nat) : List Nat :=
  proofOfAux nodeHash leaves.length leaves i

/-- Modelled from the spec: `computeProofs` (imported from `../ts`, not among
the given sources) builds the commitment tree over the claim list — each claim
is hashed to a leaf with the domain-separated `leafHash`, adjacent nodes are
paired left-to-right with `nodeHash` (an odd node promoted unchanged) until
one root remains — and returns the root together with every claim paired with
its inclusion proof, in input order. -/
def computeProofs (leafHash : Claim → Nat) (nodeHash : Nat → Nat → Nat)
    (claims : List Claim) : Nat × List (Claim × List Nat) :=
  let leaves := claims.map leafHash
  (rootOf nodeHash leaves,
   claims.enum.map fun ci => (ci.2, proofOf nodeHash leaves ci.1))

/-- `l.take k :: …` splitting with fuel bounding the recursion depth. -/
def chunksOfAux {α : Type} : Nat → Nat → List α → List (List α)
  | 0, _, _ => []
  | _, _, [] => []
  | fuel + 1, k, l => l.take k :: chunksOfAux fuel k (l.drop k)

/-- Split a list into consecutive chunks of at most `max k 1` elements. -/
def chunksOf {α : Type} (k : Nat) (l : List α) : List (List α) :=
  chunksOfAux l.length (max k 1) l

/-- A file name inside (or outside) the task's output folder
`OUTPUT_FOLDER_GC = "./output/deployment-gc"`: the three fixed artifact names,
the index-named shard files, and arbitrary other paths (the input files). -/
inductive OutPath where
  | addressesJson
  | claimsJson
  | paramsJson
  | shard (i : Nat)
  | other (s : String)
  deriving DecidableEq, Repr

/-- The filesystem operations the task performs, in the order it performs
them.  `rmSplitClaimFiles` and `writeSplitClaims` are the calls into
`../ts/split` (not among the given sources): removal of every shard file of
the output folder, and the writing of the chunked claim list, shard files
named by their index (`writeSplitClaims` carries the ordered shard
contents). -/
inductive FsEvent where
  | readFile (path : OutPath)
  | rmForce (path : OutPath)
  | rmSplitClaimFiles
  | mkdirRec
  | writeFile (path : OutPath) (content : String)
  | writeSplitClaims (chunks : List String)
  deriving DecidableEq, Repr

/-- Whether an event mutates the filesystem (everything except a read). -/
def FsEvent.mutating : FsEvent → Bool
  | .readFile _ => false
  | _ => true

/-- A filesystem: contents by path, `none` for an absent file. -/
def FS : Type := OutPath → Option String

/-- Effect of one event on a filesystem.  `writeFile` is Node's
`fs.writeFile`: a whole-file replacement.  `rmForce` is
`fs.rm { force: true }`.  `rmSplitClaimFiles` removes every shard file;
`writeSplitClaims` writes shard `i` for each index `i` below the chunk
count. -/
def applyEvent (fs : FS) : FsEvent → FS
  | .readFile _ => fs
  | .rmForce p => fun q => if q = p then none else fs q
  | .rmSplitClaimFiles => fun q => match q with | .shard _ => none | _ => fs q
  | .mkdirRec => fs
  | .writeFile p c => fun q => if q = p then some c else fs q
  | .writeSplitClaims chunks => fun q =>
      match q with
      | .shard i => match chunks.get? i with | some c => some c | none => fs q
      | _ => fs q

/-- Effect of an ordered event trace on a filesystem. -/
def applyTrace (fs : FS) (trace : List FsEvent) : FS :=
  trace.foldl applyEvent fs

/-- The paths written by an event. -/
def FsEvent.written : FsEvent → List OutPath
  | .writeFile p _ => [p]
  | .writeSplitClaims chunks => (List.range chunks.length).map OutPath.shard
  | _ => []

/-- All paths written along a trace, in order. -/
def writtenPaths (trace : List FsEvent) : List OutPath :=
  trace.flatMap FsEvent.written

/-- `JSON.stringify` of a plain string value (addresses contain no characters
that need escaping). -/
def jsonOfString (s : String) : String := "\x22" ++ s ++ "\x22"

/-- Printed name of a claim type. -/
def claimTypeName : ClaimType → String
  | .airdrop => "Airdrop"
  | .investor => "Investor"
  | .team => "Team"
  | .advisor => "Advisor"

/-- Modelled from the spec: serialization of one (claim, proof) record.  The
exact JSON shape is fixed by types outside the given sources; the claims only
need it to be a deterministic function of the record. -/
def jsonOfClaimWithProof (cp : Claim × List Nat) : String :=
  "\x7b" ++ jsonOfString cp.1.account ++ ":" ++ toString cp.1.amount ++ ":"
    ++ claimTypeName cp.1.claimType ++ ":["
    ++ String.intercalate "," (cp.2.map toString) ++ "]\x7d"

/-- `JSON.stringify` of the ordered claim+proof list. -/
def jsonOfClaims (l : List (Claim × List Nat)) : String :=
  "[" ++ String.intercalate "," (l.map jsonOfClaimWithProof) ++ "]"

/-- The warning printed when `settings.cowToken.expectedAddress` is absent. -/
def cowTokenWarning : String := "settings.cowToken.expectedAddress was not defined"

/-- The warning printed when `settings.cowDao.expectedAddress` is absent. -/
def cowDaoWarning : String := "settings.cowDao.expectedAddress was not defined"

/-- The `cowToken` expected-address check of the task: with an expectation
present, a case-insensitive comparison against the calculated address — a
mismatch throws an error quoting both addresses; with the expectation absent,
a warning.  Returns the warnings to print. -/
def cowTokenCheck (settings : Settings) (cowToken : String) :
    Except String (List String) :=
  match settings.cowToken.expectedAddress with
  | some expected =>
    if strToLower expected = strToLower cowToken then .ok []
    else
      .error ("Expected cowToken address " ++ expected
        ++ " does not coincide with calculated address " ++ cowToken)
  | none => .ok [cowTokenWarning]

/-- The `cowDao` expected-address check of the task: same structure as the
`cowToken` check, but the thrown error is the fixed string of the source,
quoting neither address. -/
def cowDaoCheck (settings : Settings) (cowDao : String) :
    Except String (List String) :=
  match settings.cowDao.expectedAddress with
  | some expected =>
    if strToLower expected = strToLower cowDao then .ok []
    else .error "Expected cowDao address does not coincide with calculated address"
  | none => .ok [cowDaoWarning]

/-- The errors `generateDeployment` can throw. -/
inductive RunError where
  | wrongChain (msg : String)
  | addressMismatch (msg : String)
  | typeError (msg : String)
  deriving DecidableEq, Repr

/-- The resolved inputs of one run of the task: the chain id reported by the
provider, the two input file paths and their parsed contents, the `cowToken`
and `cowDao` addresses returned by `generateProposal` (whose computation lives
in `../ts`, outside the given sources), the address of the deployed
`BridgedTokenDeployer`, the hash functions of the commitment tree, the
injected `defaultTokens` tables, and the shard size bound of `../ts/split`. -/
structure RunInput where
  chainId : String
  settingsPath : String
  claimsPath : String
  settings : Settings
  claims : List Claim
  cowToken : String
  cowDao : String
  deployedAddress : String
  leafHash : Claim → Nat
  nodeHash : Nat → Nat → Nat
  gno : String → Option String
  weth : String → Option String
  maxShardItems : Nat

/-- What a successful run computed: the warnings printed, the Merkle root and
claim+proof list, and the assembled deployment parameters. -/
structure RunOutput where
  warnings : List String
  merkleRoot : Nat
  claimsWithProof : List (Claim × List Nat)
  params : DeploymentHelperDeployParams
  deriving DecidableEq, Repr

/-- The task's output folder constant. -/
def OUTPUT_FOLDER_GC : String := "./output/deployment-gc"

/-- Shallow embedding of the task body `generateDeployment`, step for step:
(1) resolve the chain id and abort unless it is `"100"`; (2) read the settings
file, read the claims file; (3) `computeProofs`; (4) `generateProposal` on
`dummySettings` (its resulting `cowToken` / `cowDao` addresses are the
corresponding `RunInput` fields); (5) the `cowToken` then `cowDao`
expected-address checks; (6) assemble `deploymentHelperParameters`; (7) deploy
the contract (no filesystem effect); (8) remove `claims.json`, remove
`params.json`, remove the shard files; (9) `mkdir` the output folder and write
`addresses.json`, then `claims.json`, then the shard files.  Returns the
result together with the ordered trace of filesystem events performed before
the run ended. -/
def generateDeployment (inp : RunInput) :
    Except RunError RunOutput × List FsEvent :=
  if inp.chainId = "100" then
    let tRead : List FsEvent :=
      [.readFile (.other inp.settingsPath), .readFile (.other inp.claimsPath)]
    let pr := computeProofs inp.leafHash inp.nodeHash inp.claims
    match cowTokenCheck inp.settings inp.cowToken with
    | .error m => (.error (.addressMismatch m), tRead)
    | .ok w1 =>
      match cowDaoCheck inp.settings inp.cowDao with
      | .error m => (.error (.addressMismatch m), tRead)
      | .ok w2 =>
        match deploymentHelperParameters inp.settings inp.cowToken inp.cowDao
            pr.1 inp.chainId inp.gno inp.weth with
        | .error m => (.error (.typeError m), tRead)
        | .ok params =>
          (.ok { warnings := w1 ++ w2, merkleRoot := pr.1,
                 claimsWithProof := pr.2, params := params },
           tRead ++
             [.rmForce .claimsJson,
              .rmForce .paramsJson,
              .rmSplitClaimFiles,
              .mkdirRec,
              .writeFile .addressesJson (jsonOfString inp.deployedAddress),
              .writeFile .claimsJson (jsonOfClaims pr.2),
              .writeSplitClaims ((chunksOf inp.maxShardItems pr.2).map jsonOfClaims)])
  else
    (.error (.wrongChain
      ("This script must be run on gnosis chain. Found chainId " ++ inp.chainId)), [])

/-- Whether `needle` occurs as a contiguous sublist of the second list. -/
def listInfixOf {α : Type} [BEq α] : List α → List α → Bool
  | needle, [] => needle.isEmpty
  | needle, h :: t => needle.isPrefixOf (h :: t) || listInfixOf needle t

/-- Whether `needle` occurs as a substring of `haystack`. -/
def strContainsSub (haystack needle : String) : Bool :=
  listInfixOf needle.data haystack.data

/-- A concrete `defaultTokens.gno` table fixture. -/
def gnoTable : String → Option String :=
  fun c => if c = "100" then some "0xGNO" else none

/-- A concrete `defaultTokens.weth` table fixture. -/
def wethTable : String → Option String :=
  fun c => if c = "100" then some "0xWETH" else none

/-- A settings-document fixture: no expected addresses, `bridge` and
`virtualCowToken` present with their leaf fields set. -/
def baseSettings : Settings :=
  { cowToken := { expectedAddress := none }
    cowDao := { expectedAddress := none }
    bridge := some { multiTokenMediatorGnosisChain := some "0xMED" }
    virtualCowToken := some { gnoPrice := some "400", rest := [] }
    multiTokenMediatorGnosisChain := none
    rest := [] }

/-- A run-input fixture on the expected chain with a single claim. -/
def baseInput : RunInput :=
  { chainId := "100"
    settingsPath := "settings.json"
    claimsPath := "claims.csv"
    settings := baseSettings
    claims := [{ account := "0xAAAA", amount := 100, claimType := .airdrop }]
    cowToken := "0xC0W"
    cowDao := "0xDA0"
    deployedAddress := "0xDEPLOYED"
    leafHash := fun c => c.amount + 7
    nodeHash := fun a b => 2 * a + 3 * b
    gno := gnoTable
    weth := wethTable
    maxShardItems := 2 }

/-- `baseInput` run against a provider reporting chain id 4. -/
def inpWrongChain : RunInput := { baseInput with chainId := "4" }

/-- `baseInput` with a `cowToken` expectation that differs from the predicted
address `"0xC0W"`. -/
def inpCowTokenMismatch : RunInput :=
  { baseInput with
    settings := { baseSettings with cowToken := { expectedAddress := some "0xBAD" } } }

/-- `baseInput` with a `cowDao` expectation that differs from the predicted
address `"0xDA0"`. -/
def inpCowDaoMismatch : RunInput :=
  { baseInput with
    settings := { baseSettings with cowDao := { expectedAddress := some "0xBAD" } } }

/-- A settings document whose `bridge` object is present but lacks the
`multiTokenMediatorGnosisChain` leaf field. -/
def settingsNoMediatorLeaf : Settings :=
  { baseSettings with bridge := some { multiTokenMediatorGnosisChain := none } }

/-- A settings document whose `virtualCowToken` object is present but lacks
the `gnoPrice` leaf field. -/
def settingsNoGnoPriceLeaf : Settings :=
  { baseSettings with virtualCowToken := some { gnoPrice := none, rest := [] } }

/-- A settings document missing the whole `bridge` object. -/
def settingsNoBridge : Settings := { baseSettings with bridge := none }

/-- `baseSettings` with the bridge mediator address changed to `"0xMED2"` —
otherwise identical to `baseSettings`. -/
def settingsOtherMediator : Settings :=
  { baseSettings with bridge := some { multiTokenMediatorGnosisChain := some "0xMED2" } }

/-- `baseSettings` with different `virtualCowToken` contents — otherwise
identical to `baseSettings`. -/
def settingsOtherVirtualToken : Settings :=
  { baseSettings with
    virtualCowToken := some { gnoPrice := some "999", rest := [("extra", "1")] } }

/-- The parameter record assembled from `baseSettings` with Merkle root 5. -/
def baseParams : DeploymentHelperDeployParams :=
  { foreignToken := "0xC0W"
    multiTokenMediatorGnosisChain := some "0xMED"
    merkleRoot := 5
    communityFundsTarget := "0xDA0"
    gnoToken := some "0xGNO"
    gnoPrice := some "400"
    nativeTokenPrice := 150000000000000000
    wrappedNativeToken := some "0xWETH" }

/-- The parameter record a `baseInput` run assembles (its single claim has
leaf hash `100 + 7 = 107`, which is the Merkle root). -/
def baseRunParams : DeploymentHelperDeployParams :=
  { foreignToken := "0xC0W"
    multiTokenMediatorGnosisChain := some "0xMED"
    merkleRoot := 107
    communityFundsTarget := "0xDA0"
    gnoToken := some "0xGNO"
    gnoPrice := some "400"
    nativeTokenPrice := 150000000000000000
    wrappedNativeToken := some "0xWETH" }

/-- The output record of a successful `baseInput` run. -/
def baseOutput : RunOutput :=
  { warnings := [cowTokenWarning, cowDaoWarning]
    merkleRoot := 107
    claimsWithProof := [({ account := "0xAAAA", amount := 100, claimType := .airdrop }, [])]
    params := baseRunParams }

/-- A trace of non-mutating events leaves every filesystem unchanged. -/
lemma applyTrace_id (t : List FsEvent) (h : ∀ ev ∈ t, ev.mutating = false)
    (fs : FS) : applyTrace fs t = fs := by
  induction t generalizing fs with
  | nil => rfl
  | cons e t ih =>
    have he : e.mutating = false := h e (List.mem_cons_self e t)
    have hfs : applyEvent fs e = fs := by
      cases e <;> simp_all [FsEvent.mutating, applyEvent]
    have ht : ∀ ev ∈ t, ev.mutating = false :=
      fun ev hev => h ev (List.mem_cons_of_mem e hev)
    simpa [applyTrace, hfs] using ih ht fs

/-- Whenever the run ends in an error, its trace holds no mutating event. -/
lemma error_trace_no_mutation (inp : RunInput) (err : RunError)
    (h : (generateDeployment inp).1 = .error err) :
    ∀ ev ∈ (generateDeployment inp).2, ev.mutating = false := by
  by_cases hc : inp.chainId = "100"
  · cases hk : cowTokenCheck inp.settings inp.cowToken with
    | error m =>
      simp [generateDeployment, hc, hk, FsEvent.mutating]
    | ok w1 =>
      cases hd : cowDaoCheck inp.settings inp.cowDao with
      | error m =>
        simp [generateDeployment, hc, hk, hd, FsEvent.mutating]
      | ok w2 =>
        cases hp : deploymentHelperParameters inp.settings inp.cowToken inp.cowDao
            (computeProofs inp.leafHash inp.nodeHash inp.claims).1 inp.chainId
            inp.gno inp.weth with
        | error m =>
          rw [hc] at hp
          simp [generateDeployment, hc, hk, hd, hp, FsEvent.mutating]
        | ok params =>
          rw [hc] at hp
          simp [generateDeployment, hc, hk, hd, hp] at h
  · simp [generateDeployment, hc]

/-- With both nested objects present, the assembler succeeds and copies the
leaf fields (possibly `undefined`) into the parameter record. -/
lemma deploymentHelperParameters_ok (settings : Settings) (cowToken cowDao : String)
    (merkleRoot : Nat) (chainId : String) (gno weth : String → Option String)
    (b : BridgeSettings) (v : VirtualTokenSettings)
    (hb : settings.bridge = some b) (hv : settings.virtualCowToken = some v) :
    deploymentHelperParameters settings cowToken cowDao merkleRoot chainId gno weth =
      .ok
        { foreignToken := cowToken
          multiTokenMediatorGnosisChain := b.multiTokenMediatorGnosisChain
          merkleRoot := merkleRoot
          communityFundsTarget := cowDao
          gnoToken := gno chainId
          gnoPrice := v.gnoPrice
          nativeTokenPrice := (parseUnits "0.15" 18).getD 0
          wrappedNativeToken := weth chainId } := by
  simp [deploymentHelperParameters, hb, hv]

/-- The assembled record's `merkleRoot` field is the root argument. -/
lemma params_merkleRoot_of_ok (settings : Settings) (cowToken cowDao : String)
    (merkleRoot : Nat) (chainId : String) (gno weth : String → Option String)
    (p : DeploymentHelperDeployParams)
    (h : deploymentHelperParameters settings cowToken cowDao merkleRoot chainId
      gno weth = .ok p) : p.merkleRoot = merkleRoot := by
  unfold deploymentHelperParameters at h
  cases hb : settings.bridge with
  | none => simp [hb] at h
  | some b =>
    cases hv : settings.virtualCowToken with
    | none => simp [hb, hv] at h
    | some v =>
      simp [hb, hv] at h
      simp [← h]

/-- The assembled record's `nativeTokenPrice` field is the inlined
`parseUnits("0.15", 18)` constant. -/
lemma params_nativeTokenPrice_of_ok (settings : Settings) (cowToken cowDao : String)
    (merkleRoot : Nat) (chainId : String) (gno weth : String → Option String)
    (p : DeploymentHelperDeployParams)
    (h : deploymentHelperParameters settings cowToken cowDao merkleRoot chainId
      gno weth = .ok p) : p.nativeTokenPrice = (parseUnits "0.15" 18).getD 0 := by
  unfold deploymentHelperParameters at h
  cases hb : settings.bridge with
  | none => simp [hb] at h
  | some b =>
    cases hv : settings.virtualCowToken with
    | none => simp [hb, hv] at h
    | some v =>
      simp [hb, hv] at h
      simp [← h]

/-- Unfolding of a run on the expected chain whose three fallible steps all
succeed. -/
lemma run_ok_of_checks (inp : RunInput) (w1 w2 : List String)
    (params : DeploymentHelperDeployParams)
    (hc : inp.chainId = "100")
    (hk : cowTokenCheck inp.settings inp.cowToken = .ok w1)
    (hd : cowDaoCheck inp.settings inp.cowDao = .ok w2)
    (hp : deploymentHelperParameters inp.settings inp.cowToken inp.cowDao
      (computeProofs inp.leafHash inp.nodeHash inp.claims).1 inp.chainId
      inp.gno inp.weth = .ok params) :
    generateDeployment inp =
      (.ok
        { warnings := w1 ++ w2
          merkleRoot := (computeProofs inp.leafHash inp.nodeHash inp.claims).1
          claimsWithProof := (computeProofs inp.leafHash inp.nodeHash inp.claims).2
          params := params },
       [.readFile (.other inp.settingsPath), .readFile (.other inp.claimsPath),
        .rmForce .claimsJson, .rmForce .paramsJson, .rmSplitClaimFiles, .mkdirRec,
        .writeFile .addressesJson (jsonOfString inp.deployedAddress),
        .writeFile .claimsJson
          (jsonOfClaims (computeProofs inp.leafHash inp.nodeHash inp.claims).2),
        .writeSplitClaims
          ((chunksOf inp.maxShardItems
            (computeProofs inp.leafHash inp.nodeHash inp.claims).2).map jsonOfClaims)]) := by
  rw [hc] at hp
  simp [generateDeployment, hc, hk, hd, hp]

/-- Inversion of a successful run: the chain id was `"100"`, the output fields
come from `computeProofs` and the assembler, and the trace is the fixed
read/remove/write sequence. -/
lemma run_ok_spec (inp : RunInput) (out : RunOutput)
    (h : (generateDeployment inp).1 = .ok out) :
    inp.chainId = "100" ∧
    out.merkleRoot = (computeProofs inp.leafHash inp.nodeHash inp.claims).1 ∧
    out.claimsWithProof = (computeProofs inp.leafHash inp.nodeHash inp.claims).2 ∧
    out.params.merkleRoot = out.merkleRoot ∧
    (generateDeployment inp).2 =
      [.readFile (.other inp.settingsPath), .readFile (.other inp.claimsPath),
       .rmForce .claimsJson, .rmForce .paramsJson, .rmSplitClaimFiles, .mkdirRec,
       .writeFile .addressesJson (jsonOfString inp.deployedAddress),
       .writeFile .claimsJson (jsonOfClaims out.claimsWithProof),
       .writeSplitClaims
         ((chunksOf inp.maxShardItems out.claimsWithProof).map jsonOfClaims)] := by
  by_cases hc : inp.chainId = "100"
  · cases hk : cowTokenCheck inp.settings inp.cowToken with
    | error m => simp [generateDeployment, hc, hk] at h
    | ok w1 =>
      cases hd : cowDaoCheck inp.settings inp.cowDao with
      | error m => simp [generateDeployment, hc, hk, hd] at h
      | ok w2 =>
        cases hp : deploymentHelperParameters inp.settings inp.cowToken inp.cowDao
            (computeProofs inp.leafHash inp.nodeHash inp.claims).1 inp.chainId
            inp.gno inp.weth with
        | error m =>
          rw [hc] at hp
          simp [generateDeployment, hc, hk, hd, hp] at h
        | ok params =>
          have hrun := run_ok_of_checks inp w1 w2 params hc hk hd hp
          have hout : out =
              { warnings := w1 ++ w2
                merkleRoot := (computeProofs inp.leafHash inp.nodeHash inp.claims).1
                claimsWithProof := (computeProofs inp.leafHash inp.nodeHash inp.claims).2
                params := params } := by
            rw [hrun] at h
            injection h with h2
            exact h2.symm
          subst hout
          refine ⟨hc, rfl, rfl, ?_, ?_⟩
          · exact params_merkleRoot_of_ok _ _ _ _ _ _ _ _ hp
          · rw [hrun]
  · simp [generateDeployment, hc] at h

/-- Claim C1: for every settings document that specifies an `expectedAddress`
for a named contract (`cowToken` or `cowDao`) differing case-insensitively
from the corresponding predicted address, the run aborts with an error and no
output file is written or cleared — the trace holds no mutating event, so the
output directory is exactly as it was before the run. -/
theorem C1_mismatch_aborts_without_touching_files (inp : RunInput)
    (h : (∃ e, inp.settings.cowToken.expectedAddress = some e ∧
            strToLower e ≠ strToLower inp.cowToken) ∨
         (∃ e, inp.settings.cowDao.expectedAddress = some e ∧
            strToLower e ≠ strToLower inp.cowDao)) :
    (∃ err, (generateDeployment inp).1 = .error err) ∧
    (∀ ev ∈ (generateDeployment inp).2, ev.mutating = false) ∧
    (∀ fs, applyTrace fs (generateDeployment inp).2 = fs) := by
  have herr : ∃ err, (generateDeployment inp).1 = .error err := by
    by_cases hc : inp.chainId = "100"
    · rcases h with ⟨e, he, hne⟩ | ⟨e, he, hne⟩
      · have hk : cowTokenCheck inp.settings inp.cowToken =
            .error ("Expected cowToken address " ++ e ++
              " does not coincide with calculated address " ++ inp.cowToken) := by
          simp [cowTokenCheck, he, hne]
        exact ⟨.addressMismatch ("Expected cowToken address " ++ e ++
          " does not coincide with calculated address " ++ inp.cowToken),
          by simp [generateDeployment, hc, hk]⟩
      · cases hk : cowTokenCheck inp.settings inp.cowToken with
        | error m => exact ⟨.addressMismatch m, by simp [generateDeployment, hc, hk]⟩
        | ok w1 =>
          have hd : cowDaoCheck inp.settings inp.cowDao =
              .error "Expected cowDao address does not coincide with calculated address" := by
            simp [cowDaoCheck, he, hne]
          exact ⟨.addressMismatch
            "Expected cowDao address does not coincide with calculated address",
            by simp [generateDeployment, hc, hk, hd]⟩
    · exact ⟨.wrongChain
        ("This script must be run on gnosis chain. Found chainId " ++ inp.chainId),
        by simp [generateDeployment, hc]⟩
  obtain ⟨err, herr2⟩ := herr
  have hnm := error_trace_no_mutation inp err herr2
  exact ⟨⟨err, herr2⟩, hnm, fun fs => applyTrace_id _ hnm fs⟩

/-- Claim C1 witness: the theorem applied at the concrete input whose
`cowToken` expectation `"0xBAD"` differs from the predicted `"0xC0W"`. -/
theorem C1_witness :
    ((∃ e, inpCowTokenMismatch.settings.cowToken.expectedAddress = some e ∧
        strToLower e ≠ strToLower inpCowTokenMismatch.cowToken) ∨
     (∃ e, inpCowTokenMismatch.settings.cowDao.expectedAddress = some e ∧
        strToLower e ≠ strToLower inpCowTokenMismatch.cowDao)) ∧
    ((∃ err, (generateDeployment inpCowTokenMismatch).1 = .error err) ∧
     (∀ ev ∈ (generateDeployment inpCowTokenMismatch).2, ev.mutating = false) ∧
     (∀ fs, applyTrace fs (generateDeployment inpCowTokenMismatch).2 = fs)) :=
  ⟨Or.inl ⟨"0xBAD", rfl, by decide⟩,
   C1_mismatch_aborts_without_touching_files inpCowTokenMismatch
     (Or.inl ⟨"0xBAD", rfl, by decide⟩)⟩

/-- Claim C2: whenever the resolved chain id is not the single expected value
`"100"`, the run aborts with an error naming the found identifier, with an
empty filesystem trace — so before the claims file or the settings file is
read and before any file is touched. -/
theorem C2_wrong_chain_aborts_before_any_file (inp : RunInput)
    (h : inp.chainId ≠ "100") :
    (generateDeployment inp).1 =
      .error (.wrongChain
        ("This script must be run on gnosis chain. Found chainId " ++ inp.chainId)) ∧
    (generateDeployment inp).2 = [] := by
  simp [generateDeployment, h]

/-- Claim C2 witness: the theorem applied at the concrete input reporting
chain id 4. -/
theorem C2_witness :
    (generateDeployment inpWrongChain).1 =
      .error (.wrongChain
        ("This script must be run on gnosis chain. Found chainId "
          ++ inpWrongChain.chainId)) ∧
    (generateDeployment inpWrongChain).2 = [] :=
  C2_wrong_chain_aborts_before_any_file inpWrongChain (by decide)

/-- Claim C5 (the commitment builder is modelled from the spec, since
`computeProofs` is imported from `../ts`, outside the given sources): for
every single-claim input and any leaf/node hash functions, the tree root
equals the claim's leaf hash and the claim's inclusion proof is empty. -/
theorem C5_single_claim_root_and_empty_proof (leafHash : Claim → Nat)
    (nodeHash : Nat → Nat → Nat) (c : Claim) :
    computeProofs leafHash nodeHash [c] = (leafHash c, [(c, [])]) := rfl

/-- Claim C10: whenever the assembler succeeds, the `nativeTokenPrice` field
equals the fixed constant `parseUnits("0.15", 18) = 150000000000000000`,
independently of the settings document. -/
theorem C10_nativeTokenPrice_constant (settings : Settings)
    (cowToken cowDao : String) (merkleRoot : Nat) (chainId : String)
    (gno weth : String → Option String) (p : DeploymentHelperDeployParams)
    (h : deploymentHelperParameters settings cowToken cowDao merkleRoot chainId
      gno weth = .ok p) :
    p.nativeTokenPrice = 150000000000000000 ∧
    parseUnits "0.15" 18 = some 150000000000000000 := by
  have h1 := params_nativeTokenPrice_of_ok settings cowToken cowDao merkleRoot
    chainId gno weth p h
  have h2 : parseUnits "0.15" 18 = some 150000000000000000 := by decide
  refine ⟨?_, h2⟩
  rw [h1, h2]
  rfl

/-- Claim C10 witness: the theorem applied at the concrete base settings. -/
theorem C10_witness :
    baseParams.nativeTokenPrice = 150000000000000000 ∧
    parseUnits "0.15" 18 = some 150000000000000000 :=
  C10_nativeTokenPrice_constant baseSettings "0xC0W" "0xDA0" 5 "100"
    gnoTable wethTable baseParams (by rfl)

/-- Claim C6 counterexample: at a concrete run whose `cowDao` expectation
`"0xBAD"` differs from the predicted `"0xDA0"`, the aborting error is the
fixed string of the source, which contains neither the expected nor the
predicted address — refuting that every mismatch error names both compared
values. -/
theorem C6_counterexample :
    (generateDeployment inpCowDaoMismatch).1 =
      .error (.addressMismatch
        "Expected cowDao address does not coincide with calculated address") ∧
    strContainsSub
      "Expected cowDao address does not coincide with calculated address"
      "0xBAD" = false ∧
    strContainsSub
      "Expected cowDao address does not coincide with calculated address"
      "0xDA0" = false :=
  ⟨rfl, by decide, by decide⟩

/-- Claim C6 (amended): a `cowToken` expected-address mismatch aborts the run
with an error naming the contract and both compared values; a `cowDao`
mismatch (with the `cowToken` check passing) aborts it with a fixed error
naming the contract name only, not the compared values. -/
theorem C6_amended_mismatch_error_contents (inp : RunInput)
    (hc : inp.chainId = "100") :
    (∀ e, inp.settings.cowToken.expectedAddress = some e →
      strToLower e ≠ strToLower inp.cowToken →
      (generateDeployment inp).1 = .error (.addressMismatch
        ("Expected cowToken address " ++ e ++
          " does not coincide with calculated address " ++ inp.cowToken))) ∧
    (∀ e, inp.settings.cowDao.expectedAddress = some e →
      strToLower e ≠ strToLower inp.cowDao →
      ∀ w1, cowTokenCheck inp.settings inp.cowToken = .ok w1 →
      (generateDeployment inp).1 = .error (.addressMismatch
        "Expected cowDao address does not coincide with calculated address")) := by
  constructor
  · intro e he hne
    have hk : cowTokenCheck inp.settings inp.cowToken =
        .error ("Expected cowToken address " ++ e ++
          " does not coincide with calculated address " ++ inp.cowToken) := by
      simp [cowTokenCheck, he, hne]
    simp [generateDeployment, hc, hk]
  · intro e he hne w1 hk
    have hd : cowDaoCheck inp.settings inp.cowDao =
        .error "Expected cowDao address does not coincide with calculated address" := by
      simp [cowDaoCheck, he, hne]
    simp [generateDeployment, hc, hk, hd]

/-- Claim C6 witness: the amended theorem applied at the concrete `cowToken`
mismatch input — the error names the contract and both addresses. -/
theorem C6_witness :
    (generateDeployment inpCowTokenMismatch).1 = .error (.addressMismatch
      ("Expected cowToken address " ++ "0xBAD" ++
        " does not coincide with calculated address "
        ++ inpCowTokenMismatch.cowToken)) :=
  (C6_amended_mismatch_error_contents inpCowTokenMismatch rfl).1 "0xBAD" rfl (by decide)

/-- Claim C7 counterexample: a settings document whose `bridge` object lacks
the `multiTokenMediatorGnosisChain` leaf (and one whose `virtualCowToken`
lacks `gnoPrice`) does **not** fail the assembler: it succeeds and the
corresponding parameter is the JavaScript `undefined` — refuting that every
missing required field fails with a named-field error. -/
theorem C7_counterexample :
    settingsNoMediatorLeaf.bridge.map BridgeSettings.multiTokenMediatorGnosisChain =
      some none ∧
    (∃ p, deploymentHelperParameters settingsNoMediatorLeaf "0xC0W" "0xDA0" 5 "100"
        gnoTable wethTable = .ok p ∧ p.multiTokenMediatorGnosisChain = none) ∧
    settingsNoGnoPriceLeaf.virtualCowToken.map VirtualTokenSettings.gnoPrice =
      some none ∧
    (∃ p, deploymentHelperParameters settingsNoGnoPriceLeaf "0xC0W" "0xDA0" 5 "100"
        gnoTable wethTable = .ok p ∧ p.gnoPrice = none) :=
  ⟨rfl, ⟨_, rfl, rfl⟩, rfl, ⟨_, rfl, rfl⟩⟩

/-- Claim C7 (amended): the assembler fails with an error naming the accessed
field only when the whole containing object is missing (`bridge` missing →
`TypeError` naming `multiTokenMediatorGnosisChain`; `virtualCowToken` missing
→ `TypeError` naming `gnoPrice`); when the objects are present, it succeeds
and copies the leaf fields — possibly `undefined` — unchecked. -/
theorem C7_amended_missing_object_vs_missing_leaf (settings : Settings)
    (cowToken cowDao : String) (merkleRoot : Nat) (chainId : String)
    (gno weth : String → Option String) :
    (settings.bridge = none →
      deploymentHelperParameters settings cowToken cowDao merkleRoot chainId gno weth =
        .error (typeErrorMsg "multiTokenMediatorGnosisChain")) ∧
    (∀ b, settings.bridge = some b → settings.virtualCowToken = none →
      deploymentHelperParameters settings cowToken cowDao merkleRoot chainId gno weth =
        .error (typeErrorMsg "gnoPrice")) ∧
    (∀ b v, settings.bridge = some b → settings.virtualCowToken = some v →
      ∃ p, deploymentHelperParameters settings cowToken cowDao merkleRoot chainId
          gno weth = .ok p ∧
        p.multiTokenMediatorGnosisChain = b.multiTokenMediatorGnosisChain ∧
        p.gnoPrice = v.gnoPrice) := by
  refine ⟨?_, ?_, ?_⟩
  · intro hb
    simp [deploymentHelperParameters, hb]
  · intro b hb hv
    simp [deploymentHelperParameters, hb, hv]
  · intro b v hb hv
    exact ⟨_, deploymentHelperParameters_ok settings cowToken cowDao merkleRoot
      chainId gno weth b v hb hv, rfl, rfl⟩

/-- Claim C7 witness: the amended theorem applied at the settings document
missing the whole `bridge` object. -/
theorem C7_witness :
    deploymentHelperParameters settingsNoBridge "0xC0W" "0xDA0" 5 "100"
      gnoTable wethTable = .error (typeErrorMsg "multiTokenMediatorGnosisChain") :=
  (C7_amended_missing_object_vs_missing_leaf settingsNoBridge "0xC0W" "0xDA0" 5
    "100" gnoTable wethTable).1 rfl

/-- Claim C9 counterexample: two settings documents identical except for the
bridge mediator address `bridge.multiTokenMediatorGnosisChain` yield
**different** `dummySettings` objects — the argument passed to
`generateProposal` — because the object literal only sets a top-level
`multiTokenMediatorGnosisChain` field to the zero address while the spread
keeps the nested `bridge` object unchanged.  This refutes that
`generateProposal` receives identical inputs for settings differing in the
bridge mediator. -/
theorem C9_counterexample :
    baseSettings.cowToken = settingsOtherMediator.cowToken ∧
    baseSettings.cowDao = settingsOtherMediator.cowDao ∧
    baseSettings.virtualCowToken = settingsOtherMediator.virtualCowToken ∧
    baseSettings.multiTokenMediatorGnosisChain =
      settingsOtherMediator.multiTokenMediatorGnosisChain ∧
    baseSettings.rest = settingsOtherMediator.rest ∧
    baseSettings.bridge ≠ settingsOtherMediator.bridge ∧
    dummySettings baseSettings ≠ dummySettings settingsOtherMediator := by
  decide

/-- Claim C9 (amended): the `generateProposal` input does not depend on the
settings' `virtualCowToken` fields — for any two settings documents that
differ only in `virtualCowToken`, `dummySettings` is identical, so any
function of it (in particular the predicted `cowToken` / `cowDao` addresses)
is identical. -/
theorem C9_amended_virtualToken_independence (s1 s2 : Settings)
    (hct : s1.cowToken = s2.cowToken) (hcd : s1.cowDao = s2.cowDao)
    (hb : s1.bridge = s2.bridge)
    (hm : s1.multiTokenMediatorGnosisChain = s2.multiTokenMediatorGnosisChain)
    (hr : s1.rest = s2.rest) :
    dummySettings s1 = dummySettings s2 ∧
    ∀ gp : Settings → String × String,
      gp (dummySettings s1) = gp (dummySettings s2) := by
  have h : dummySettings s1 = dummySettings s2 := by
    cases s1
    cases s2
    simp_all [dummySettings]
  exact ⟨h, fun gp => by rw [h]⟩

/-- Claim C9 witness: the amended theorem applied at two concrete settings
documents differing only in `virtualCowToken`. -/
theorem C9_witness :
    settingsOtherVirtualToken.virtualCowToken ≠ baseSettings.virtualCowToken ∧
    dummySettings settingsOtherVirtualToken = dummySettings baseSettings :=
  ⟨by decide, (C9_amended_virtualToken_independence settingsOtherVirtualToken
    baseSettings rfl rfl rfl rfl rfl).1⟩

/-- Claim C8: when the `expectedAddress` of a named contract is absent (and
the run otherwise proceeds: right chain, other expectation absent or matching,
nested settings objects present), the run emits the non-fatal warning for that
contract and still succeeds, assembling parameters and writing the artifact
files. -/
theorem C8_absent_expectation_warns_and_proceeds (inp : RunInput)
    (hc : inp.chainId = "100")
    (hb : inp.settings.bridge.isSome = true)
    (hv : inp.settings.virtualCowToken.isSome = true)
    (hct : ∀ e, inp.settings.cowToken.expectedAddress = some e →
      strToLower e = strToLower inp.cowToken)
    (hcd : ∀ e, inp.settings.cowDao.expectedAddress = some e →
      strToLower e = strToLower inp.cowDao) :
    ∃ out, (generateDeployment inp).1 = .ok out ∧
      (inp.settings.cowToken.expectedAddress = none →
        cowTokenWarning ∈ out.warnings) ∧
      (inp.settings.cowDao.expectedAddress = none →
        cowDaoWarning ∈ out.warnings) ∧
      OutPath.addressesJson ∈ writtenPaths (generateDeployment inp).2 ∧
      OutPath.claimsJson ∈ writtenPaths (generateDeployment inp).2 := by
  obtain ⟨b, hb2⟩ := Option.isSome_iff_exists.mp hb
  obtain ⟨v, hv2⟩ := Option.isSome_iff_exists.mp hv
  have hk : ∃ w1, cowTokenCheck inp.settings inp.cowToken = .ok w1 ∧
      (inp.settings.cowToken.expectedAddress = none → cowTokenWarning ∈ w1) := by
    cases hcte : inp.settings.cowToken.expectedAddress with
    | none =>
      exact ⟨[cowTokenWarning], by simp [cowTokenCheck, hcte], fun _ => by simp⟩
    | some e =>
      exact ⟨[], by simp [cowTokenCheck, hcte, hct e hcte],
        fun hcontra => Option.noConfusion hcontra⟩
  have hd : ∃ w2, cowDaoCheck inp.settings inp.cowDao = .ok w2 ∧
      (inp.settings.cowDao.expectedAddress = none → cowDaoWarning ∈ w2) := by
    cases hcde : inp.settings.cowDao.expectedAddress with
    | none =>
      exact ⟨[cowDaoWarning], by simp [cowDaoCheck, hcde], fun _ => by simp⟩
    | some e =>
      exact ⟨[], by simp [cowDaoCheck, hcde, hcd e hcde],
        fun hcontra => Option.noConfusion hcontra⟩
  obtain ⟨w1, hk1, hk2⟩ := hk
  obtain ⟨w2, hd1, hd2⟩ := hd
  have hp := deploymentHelperParameters_ok inp.settings inp.cowToken inp.cowDao
    (computeProofs inp.leafHash inp.nodeHash inp.claims).1 inp.chainId inp.gno
    inp.weth b v hb2 hv2
  have hrun := run_ok_of_checks inp w1 w2 _ hc hk1 hd1 hp
  rw [hrun]
  refine ⟨_, rfl, ?_, ?_, ?_, ?_⟩
  · intro hnone
    exact List.mem_append.mpr (Or.inl (hk2 hnone))
  · intro hnone
    exact List.mem_append.mpr (Or.inr (hd2 hnone))
  · simp [writtenPaths, FsEvent.written]
  · simp [writtenPaths, FsEvent.written]

/-- Claim C8 witness: the theorem applied at the base input, where both
expectations are absent — the run succeeds with both warnings and writes the
artifacts. -/
theorem C8_witness :
    ∃ out, (generateDeployment baseInput).1 = .ok out ∧
      (baseInput.settings.cowToken.expectedAddress = none →
        cowTokenWarning ∈ out.warnings) ∧
      (baseInput.settings.cowDao.expectedAddress = none →
        cowDaoWarning ∈ out.warnings) ∧
      OutPath.addressesJson ∈ writtenPaths (generateDeployment baseInput).2 ∧
      OutPath.claimsJson ∈ writtenPaths (generateDeployment baseInput).2 :=
  C8_absent_expectation_warns_and_proceeds baseInput rfl rfl rfl
    (fun e h => Option.noConfusion (show (none : Option String) = some e from h))
    (fun e h => Option.noConfusion (show (none : Option String) = some e from h))

/-- Claim C3 counterexample: a concrete successful run writes no file named
`params.json` — the stale `params.json` is even removed — so the assembled
deployment parameters are not persisted as an artifact, refuting the claim's
first half. -/
theorem C3_counterexample :
    (generateDeployment baseInput).1.isOk = true ∧
    OutPath.paramsJson ∉ writtenPaths (generateDeployment baseInput).2 ∧
    FsEvent.rmForce OutPath.paramsJson ∈ (generateDeployment baseInput).2 ∧
    ∀ fs, applyTrace fs (generateDeployment baseInput).2 OutPath.paramsJson = none := by
  refine ⟨by decide, by decide, by decide, ?_⟩
  intro fs
  simp [applyTrace, applyEvent, generateDeployment, computeProofs, cowTokenCheck,
    cowDaoCheck, deploymentHelperParameters, baseInput, baseSettings]

/-- Claim C3 (amended): every successful run persists exactly the
deployed-address file, the full claim+proof file and the index-named shard
files — the assembled deployment parameters are not persisted (no parameters
file is written; the stale `params.json` is only removed) — and for a
single-claim input the assembled parameters record's `merkleRoot` field equals
the single claim's leaf hash. -/
theorem C3_amended_artifacts_and_single_claim_root (inp : RunInput)
    (out : RunOutput) (h : (generateDeployment inp).1 = .ok out) :
    writtenPaths (generateDeployment inp).2 =
      [OutPath.addressesJson, OutPath.claimsJson] ++
        (List.range (chunksOf inp.maxShardItems out.claimsWithProof).length).map
          OutPath.shard ∧
    OutPath.paramsJson ∉ writtenPaths (generateDeployment inp).2 ∧
    (∀ c, inp.claims = [c] → out.params.merkleRoot = inp.leafHash c) := by
  obtain ⟨hc, hmr, hcw, hpm, ht⟩ := run_ok_spec inp out h
  refine ⟨?_, ?_, ?_⟩
  · rw [ht]
    simp [writtenPaths, FsEvent.written]
  · rw [ht]
    simp [writtenPaths, FsEvent.written]
  · intro c hclaims
    rw [hpm, hmr, hclaims]
    rfl

/-- Claim C3 witness: the amended theorem applied at the concrete single-claim
base run: leaf hash `107` is the `merkleRoot` of the assembled parameters. -/
theorem C3_witness :
    writtenPaths (generateDeployment baseInput).2 =
      [OutPath.addressesJson, OutPath.claimsJson] ++
        (List.range
          (chunksOf baseInput.maxShardItems baseOutput.claimsWithProof).length).map
          OutPath.shard ∧
    OutPath.paramsJson ∉ writtenPaths (generateDeployment baseInput).2 ∧
    (∀ c, baseInput.claims = [c] → baseOutput.params.merkleRoot = baseInput.leafHash c) :=
  C3_amended_artifacts_and_single_claim_root baseInput baseOutput rfl

/-- Claim C4: every successful run performs exactly, in this order: the two
input reads; removal of `claims.json`, removal of `params.json`, removal of
the shard files; creation of the output folder; then writes of (1) the
deployed contract address, (2) the full ordered claim+proof list, (3) the
index-named shard files.  Every write is a whole-file replacement: over any
starting filesystem, the final contents of the written files are exactly the
newly written contents, and shard file `i` exists afterwards exactly when `i`
is below the new shard count (no orphaned shards survive). -/
theorem C4_cleanup_then_ordered_writes (inp : RunInput) (out : RunOutput)
    (h : (generateDeployment inp).1 = .ok out) :
    (generateDeployment inp).2 =
      [.readFile (.other inp.settingsPath), .readFile (.other inp.claimsPath),
       .rmForce .claimsJson, .rmForce .paramsJson, .rmSplitClaimFiles, .mkdirRec,
       .writeFile .addressesJson (jsonOfString inp.deployedAddress),
       .writeFile .claimsJson (jsonOfClaims out.claimsWithProof),
       .writeSplitClaims
         ((chunksOf inp.maxShardItems out.claimsWithProof).map jsonOfClaims)] ∧
    (∀ fs,
      applyTrace fs (generateDeployment inp).2 OutPath.addressesJson =
        some (jsonOfString inp.deployedAddress) ∧
      applyTrace fs (generateDeployment inp).2 OutPath.claimsJson =
        some (jsonOfClaims out.claimsWithProof) ∧
      ∀ i, applyTrace fs (generateDeployment inp).2 (OutPath.shard i) =
        ((chunksOf inp.maxShardItems out.claimsWithProof).map jsonOfClaims).get? i) := by
  obtain ⟨hc, hmr, hcw, hpm, ht⟩ := run_ok_spec inp out h
  refine ⟨ht, ?_⟩
  intro fs
  refine ⟨?_, ?_, ?_⟩
  · rw [ht]
    simp [applyTrace, applyEvent]
  · rw [ht]
    simp [applyTrace, applyEvent]
  · intro i
    rw [ht]
    cases hgi : (chunksOf inp.maxShardItems out.claimsWithProof)[i]? with
    | none => simp [applyTrace, applyEvent, hgi]
    | some c => simp [applyTrace, applyEvent, hgi]

/-- Claim C4 witness: the theorem applied at the concrete base run. -/
theorem C4_witness :
    (generateDeployment baseInput).2 =
      [.readFile (.other baseInput.settingsPath),
       .readFile (.other baseInput.claimsPath),
       .rmForce .claimsJson, .rmForce .paramsJson, .rmSplitClaimFiles, .mkdirRec,
       .writeFile .addressesJson (jsonOfString baseInput.deployedAddress),
       .writeFile .claimsJson (jsonOfClaims baseOutput.claimsWithProof),
       .writeSplitClaims
         ((chunksOf baseInput.maxShardItems baseOutput.claimsWithProof).map
           jsonOfClaims)] ∧
    (∀ fs,
      applyTrace fs (generateDeployment baseInput).2 OutPath.addressesJson =
        some (jsonOfString baseInput.deployedAddress) ∧
      applyTrace fs (generateDeployment baseInput).2 OutPath.claimsJson =
        some (jsonOfClaims baseOutput.claimsWithProof) ∧
      ∀ i, applyTrace fs (generateDeployment baseInput).2 (OutPath.shard i) =
        ((chunksOf baseInput.maxShardItems baseOutput.claimsWithProof).map
          jsonOfClaims).get? i) :=
  C4_cleanup_then_ordered_writes baseInput baseOutput rfl

end CowToken
